import Mathlib

/-!
# Verification of the pixel-1 edit-history store and its callers

Shallow embedding of the Redux `editorSlice` (src/store/editorSlice.ts,
mirrored in src/unnamed/part_001), the history-related callbacks of
`EditorPage` (src/pages/EditorPage.tsx) and the batch minter
(src/components/home/CollectionMinter.tsx).

Artifacts (`File` objects in the source) are modelled by an arbitrary
type `α`.  JavaScript array indices are modelled as `Int` because the
cursor legitimately takes the value `-1`.
-/

namespace Pixshop

/-- JavaScript `Array.prototype.slice(start, stop)` on a list: negative
bounds count from the end, and both bounds are clamped to `[0, length]`. -/
def jsSlice {α : Type} (l : List α) (start stop : Int) : List α :=
  let len : Int := l.length
  let s : Int := if start < 0 then max (len + start) 0 else min start len
  let e : Int := if stop < 0 then max (len + stop) 0 else min stop len
  (l.take e.toNat).drop s.toNat

/-- JavaScript array subscripting `arr[i]` (with `?? null` at the use
site): a negative or out-of-range index yields no value. -/
def jsIndex {α : Type} (l : List α) (i : Int) : Option α :=
  if 0 ≤ i then l[i.toNat]? else none

/-- The whitespace characters stripped by `String.prototype.trim` (the
ASCII ones; the exotic Unicode space separators never arise here). -/
def isJsWhitespace (c : Char) : Bool :=
  c = ' ' || c = '\t' || c = '\n' || c = '\x0b' || c = '\x0c' || c = '\r'

/-- JavaScript `String.prototype.trim`: strip leading and trailing
whitespace. -/
def jsTrim (s : String) : String :=
  String.mk (((s.data.dropWhile isJsWhitespace).reverse.dropWhile
    isJsWhitespace).reverse)

/-- The `editor` slice state (`EditorState` in src/store/editorSlice.ts). -/
structure EditorState (α : Type) where
  history : List α
  historyIndex : Int
  isLoading : Bool
  error : Option String
deriving Repr, DecidableEq

/-- `initialState` of the slice: empty history, cursor -1, loading. -/
def initialState {α : Type} : EditorState α :=
  { history := [], historyIndex := -1, isLoading := true, error := none }

/-- Reducer `setHistoryState`: overwrite history and cursor from the payload. -/
def setHistoryState {α : Type} (s : EditorState α) (history : List α)
    (historyIndex : Int) : EditorState α :=
  { s with history := history, historyIndex := historyIndex }

/-- Reducer `setHistory`. -/
def setHistory {α : Type} (s : EditorState α) (history : List α) : EditorState α :=
  { s with history := history }

/-- Reducer `setHistoryIndex`. -/
def setHistoryIndex {α : Type} (s : EditorState α) (i : Int) : EditorState α :=
  { s with historyIndex := i }

/-- Reducer `addImageToHistory`: `history.slice(0, historyIndex + 1)`,
push the payload, cursor becomes the new last index. -/
def addImageToHistory {α : Type} (s : EditorState α) (payload : α) : EditorState α :=
  let newHistory := jsSlice s.history 0 (s.historyIndex + 1) ++ [payload]
  { s with history := newHistory, historyIndex := (newHistory.length : Int) - 1 }

/-- Reducer `resetHistory`: empty history, cursor -1. -/
def resetHistory {α : Type} (s : EditorState α) : EditorState α :=
  { s with history := [], historyIndex := -1 }

/-- Reducer `setIsLoading`. -/
def setIsLoading {α : Type} (s : EditorState α) (b : Bool) : EditorState α :=
  { s with isLoading := b }

/-- Reducer `setError`. -/
def setError {α : Type} (s : EditorState α) (e : Option String) : EditorState α :=
  { s with error := e }

/-- `currentImageUrl` in EditorPage: `historyImageUrls[historyIndex] ?? null`,
read back through the object-URL map as the artifact at the cursor. -/
def currentArtifact {α : Type} (s : EditorState α) : Option α :=
  jsIndex s.history s.historyIndex

/-- `canUndo` in EditorPage: `historyIndex > 0`. -/
def canUndo {α : Type} (s : EditorState α) : Bool :=
  decide (0 < s.historyIndex)

/-- `handleHistoryNavigation(index)` in EditorPage: dispatch
`setHistoryIndex(index)` only when `index >= 0 && index < history.length`. -/
def handleHistoryNavigation {α : Type} (s : EditorState α) (index : Int) : EditorState α :=
  if 0 ≤ index ∧ index < (s.history.length : Int) then setHistoryIndex s index else s

/-- The store-level invariant of §3 of the spec: the cursor is inside the
sequence whenever the sequence is non-empty, and `-1` when it is empty. -/
def HistoryInv {α : Type} (s : EditorState α) : Prop :=
  (s.history = [] → s.historyIndex = -1) ∧
  (s.history ≠ [] → 0 ≤ s.historyIndex ∧ s.historyIndex < (s.history.length : Int))

/-- A hotspot `{x, y}` as produced by `handleImageClick`. -/
structure Hotspot where
  x : Int
  y : Int
deriving Repr, DecidableEq

/-- The state `handleGenerate` reaches before issuing the external call:
`dispatch(setIsLoading(true)); dispatch(setError(null))`. -/
def handleGeneratePreCall {α : Type} (s : EditorState α) : EditorState α :=
  setError (setIsLoading s true) none

/-- The try/catch/finally body of `handleGenerate` once the guard has
passed.  The external call `geminiService.generateEditedImage` composed
with `dataURLtoFile` is modelled by its outcome: `.ok img` when it
resolves with a new artifact, `.error msg` when it throws.  On success
`addNewImage` dispatches `addImageToHistory`; on failure `setError` is
dispatched; either way the `finally` block dispatches
`setIsLoading(false)`. -/
def handleGenerateRun {α : Type} (s : EditorState α) (svc : Except String α) :
    EditorState α :=
  let s1 := handleGeneratePreCall s
  match svc with
  | .ok img => setIsLoading (addImageToHistory s1 img) false
  | .error msg => setIsLoading (setError s1 (some msg)) false

/-- `handleGenerate` in EditorPage: early return when there is no current
image, the trimmed prompt is empty, or no hotspot is set; otherwise run
the guarded body. -/
def handleGenerate {α : Type} (s : EditorState α) (prompt : String)
    (editHotspot : Option Hotspot) (svc : Except String α) : EditorState α :=
  if (jsIndex s.history s.historyIndex).isNone || (jsTrim prompt).isEmpty
      || editHotspot.isNone then s
  else handleGenerateRun s svc

/-! ## Batch minter (src/components/home/CollectionMinter.tsx) -/

/-- One parsed CSV row. -/
structure CsvData where
  tokenId : String
  metadataUrl : String
deriving Repr, DecidableEq

/-- A recorded successful mint. -/
structure MintResult where
  tokenId : String
  txHash : String
deriving Repr, DecidableEq

/-- A recorded failed mint. -/
structure MintError where
  tokenId : String
  error : String
deriving Repr, DecidableEq

/-- A transaction receipt as returned by `polygonService.mintFromMetadataUrl`:
only its `hash` field is consulted; an absent/empty hash is falsy. -/
structure Receipt where
  hash : String
deriving Repr, DecidableEq

/-- The `mintingProgress` component state. -/
structure MintingProgress where
  total : Nat
  completed : Nat
  errors : Nat
  currentAction : String
  successfulMints : List MintResult
  failedMints : List MintError
deriving Repr, DecidableEq

/-- The progress state installed at the start of `handleMintCollection`. -/
def initialMintingProgress (total : Nat) : MintingProgress :=
  { total := total, completed := 0, errors := 0, currentAction := "Starting...",
    successfulMints := [], failedMints := [] }

/-- `err.message || 'Unknown error'` in the catch block. -/
def mintItemError (e : String) : String :=
  if e = "" then "Unknown error" else e

/-- One iteration of the `for (const item of parsedData)` loop.  The
external mint call is modelled by its outcome: `.error e` when it throws,
`.ok none` when it resolves with a null receipt, `.ok (some r)` when it
resolves with receipt `r` (whose empty hash is falsy).  A null/hashless
receipt throws inside the try and lands in the same catch. -/
def mintOneItem (svc : CsvData → Except String (Option Receipt))
    (p : MintingProgress) (item : CsvData) : MintingProgress :=
  let p0 := { p with currentAction := "Minting Token ID: " ++ item.tokenId ++ "..." }
  match svc item with
  | .ok (some r) =>
      if r.hash = "" then
        { p0 with
            errors := p0.errors + 1
            failedMints := p0.failedMints ++
              [{ tokenId := item.tokenId,
                 error := mintItemError "Transaction failed or hash not found." }] }
      else
        { p0 with
            completed := p0.completed + 1
            successfulMints := p0.successfulMints ++
              [{ tokenId := item.tokenId, txHash := r.hash }] }
  | .ok none =>
      { p0 with
          errors := p0.errors + 1
          failedMints := p0.failedMints ++
            [{ tokenId := item.tokenId,
               error := mintItemError "Transaction failed or hash not found." }] }
  | .error e =>
      { p0 with
          errors := p0.errors + 1
          failedMints := p0.failedMints ++
            [{ tokenId := item.tokenId, error := mintItemError e }] }

/-- The loop of `handleMintCollection` followed by the final
`currentAction` update. -/
def runMintLoop (svc : CsvData → Except String (Option Receipt))
    (parsedData : List CsvData) : MintingProgress :=
  let final := parsedData.foldl (mintOneItem svc) (initialMintingProgress parsedData.length)
  { final with currentAction := "All transactions processed." }

/-- `handleMintCollection`: `none` when the guard rejects (missing wallet,
contract, network, or data) or the user does not confirm; otherwise the
progress state after the whole loop has run. -/
def handleMintCollection (parsedData : List CsvData)
    (contractAddress network walletAddress : String) (confirmed : Bool)
    (svc : CsvData → Except String (Option Receipt)) : Option MintingProgress :=
  if parsedData.length = 0 || contractAddress = "" || network = ""
      || walletAddress = "" then none
  else if !confirmed then none
  else some (runMintLoop svc parsedData)

/-- Whether the mint call for an item succeeds (resolves with a receipt
carrying a non-empty hash). -/
def mintSucceeds (svc : CsvData → Except String (Option Receipt))
    (item : CsvData) : Bool :=
  match svc item with
  | .ok (some r) => decide (r.hash ≠ "")
  | _ => false

/-- The success record the loop appends for a succeeding item. -/
def mintResultOf (svc : CsvData → Except String (Option Receipt))
    (item : CsvData) : MintResult :=
  match svc item with
  | .ok (some r) => { tokenId := item.tokenId, txHash := r.hash }
  | _ => { tokenId := item.tokenId, txHash := "" }

/-- The failure record the loop appends for a failing item. -/
def mintErrorOf (svc : CsvData → Except String (Option Receipt))
    (item : CsvData) : MintError :=
  match svc item with
  | .error e => { tokenId := item.tokenId, error := mintItemError e }
  | _ => { tokenId := item.tokenId,
           error := mintItemError "Transaction failed or hash not found." }

/-! ## Helper lemmas -/

/-- `slice(0, stop)` with a non-negative `stop` is `take`. -/
theorem jsSlice_zero_nonneg {α : Type} (l : List α) (stop : Int) (h : 0 ≤ stop) :
    jsSlice l 0 stop = l.take stop.toNat := by
  unfold jsSlice
  have h0 : ¬ ((0 : Int) < 0) := by omega
  have h1 : ¬ (stop < 0) := by omega
  simp only [if_neg h0, if_neg h1]
  have hmin0 : (min (0 : Int) (l.length : Int)).toNat = 0 := by omega
  rw [hmin0, List.drop_zero]
  rcases le_or_lt stop (l.length : Int) with hle | hlt
  · have : (min stop (l.length : Int)).toNat = stop.toNat := by omega
    rw [this]
  · have h2 : (min stop (l.length : Int)).toNat = l.length := by omega
    rw [h2, List.take_length, List.take_of_length_le (by omega)]

/-- Unfolding of `addImageToHistory` at a non-negative cursor. -/
theorem addImageToHistory_eq {α : Type} (s : EditorState α) (a : α)
    (h : 0 ≤ s.historyIndex) :
    addImageToHistory s a =
      { s with
          history := s.history.take (s.historyIndex.toNat + 1) ++ [a]
          historyIndex :=
            ((s.history.take (s.historyIndex.toNat + 1) ++ [a]).length : Int) - 1 } := by
  have h1 : (s.historyIndex + 1).toNat = s.historyIndex.toNat + 1 := by omega
  unfold addImageToHistory
  rw [jsSlice_zero_nonneg _ _ (by omega), h1]

/-! ## Claims -/

/-- C7: after `resetHistory` the sequence is empty, the cursor is `-1`,
`current()` returns no artifact and `canUndo` is false. -/
theorem reset_clears_history {α : Type} (s : EditorState α) :
    (resetHistory s).history = [] ∧ (resetHistory s).historyIndex = -1 ∧
    currentArtifact (resetHistory s) = none ∧ canUndo (resetHistory s) = false := by
  refine ⟨rfl, rfl, ?_, rfl⟩
  simp [resetHistory, currentArtifact, jsIndex]

/-- C6: `handleHistoryNavigation` with an out-of-range index leaves the
whole editor state — in particular cursor and history — unchanged. -/
theorem seek_out_of_range_noop {α : Type} (s : EditorState α) (i : Int)
    (h : i < 0 ∨ (s.history.length : Int) ≤ i) :
    handleHistoryNavigation s i = s := by
  unfold handleHistoryNavigation
  rw [if_neg]
  rintro ⟨h0, h1⟩
  omega

/-- C6 witness: seeking index 5 in a 3-element history is a no-op. -/
theorem seek_out_of_range_noop_witness :
    handleHistoryNavigation (⟨[1, 2, 3], 2, false, none⟩ : EditorState Nat) 5 =
      ⟨[1, 2, 3], 2, false, none⟩ :=
  seek_out_of_range_noop ⟨[1, 2, 3], 2, false, none⟩ 5 (by right; decide)

/-- C3 counterexample: dispatching `addImageToHistory` on the empty store
state does not fail and raises no error of any kind — it just produces the
one-element history with cursor 0, with the `error` field still `none`;
there is no `InvalidStateError` anywhere in the reducer. -/
theorem append_on_empty_no_error :
    addImageToHistory (initialState : EditorState Nat) 7 =
      { history := [7], historyIndex := 0, isLoading := true, error := none } := by
  decide

/-- C3 amended: calling `append` on an empty history is silently
tolerated, not rejected: the reducer returns the single-element history
`[a]` with cursor 0 and leaves the `error` field untouched. -/
theorem append_on_empty_tolerated {α : Type} (s : EditorState α) (a : α)
    (he : s.history = []) (hi : s.historyIndex = -1) :
    (addImageToHistory s a).history = [a] ∧
    (addImageToHistory s a).historyIndex = 0 ∧
    (addImageToHistory s a).error = s.error := by
  unfold addImageToHistory
  rw [he, hi]
  refine ⟨rfl, rfl, rfl⟩

/-- C3 amended witness at the concrete empty store state. -/
theorem append_on_empty_tolerated_witness :
    (addImageToHistory (initialState : EditorState Nat) 5).history = [5] ∧
    (addImageToHistory (initialState : EditorState Nat) 5).historyIndex = 0 ∧
    (addImageToHistory (initialState : EditorState Nat) 5).error =
      (initialState : EditorState Nat).error :=
  append_on_empty_tolerated initialState 5 rfl rfl

/-- C10: on the empty store state (`history = []`, cursor `-1`) the append
reducer behaves exactly like seeding via `setHistoryState` with the
singleton history and index 0. -/
theorem append_on_empty_seeds {α : Type} (s : EditorState α) (a : α)
    (he : s.history = []) (hi : s.historyIndex = -1) :
    addImageToHistory s a = setHistoryState s [a] 0 ∧
    (addImageToHistory s a).history = [a] ∧
    (addImageToHistory s a).historyIndex = 0 := by
  unfold addImageToHistory setHistoryState
  rw [he, hi]
  refine ⟨rfl, rfl, rfl⟩

/-- C10 witness at the concrete initial state. -/
theorem append_on_empty_seeds_witness :
    addImageToHistory (initialState : EditorState Nat) 3 =
      setHistoryState (initialState : EditorState Nat) [3] 0 ∧
    (addImageToHistory (initialState : EditorState Nat) 3).history = [3] ∧
    (addImageToHistory (initialState : EditorState Nat) 3).historyIndex = 0 :=
  append_on_empty_seeds initialState 3 rfl rfl

/-- The append reducer always re-establishes the history invariant:
the produced history ends in the pushed artifact, and the cursor is its
last index. -/
theorem addImageToHistory_historyInv {α : Type} (s : EditorState α) (a : α) :
    HistoryInv (addImageToHistory s a) := by
  unfold addImageToHistory HistoryInv
  constructor
  · intro hemp
    simp at hemp
  · intro _
    simp

/-- C1: with a valid cursor `c`, append truncates to `History[0..c]`, pushes
the artifact, and moves the cursor to `c + 1`, the new last index; at the
tip the length grows by one, off the tip the new length is `c + 2` and the
artifacts that lived only beyond `c` are gone. -/
theorem append_truncates_and_advances {α : Type} (s : EditorState α) (a : α)
    (h0 : 0 ≤ s.historyIndex) (h1 : s.historyIndex < (s.history.length : Int)) :
    (addImageToHistory s a).history =
        s.history.take (s.historyIndex.toNat + 1) ++ [a] ∧
    (addImageToHistory s a).historyIndex = s.historyIndex + 1 ∧
    (addImageToHistory s a).historyIndex =
        ((addImageToHistory s a).history.length : Int) - 1 ∧
    (s.historyIndex = (s.history.length : Int) - 1 →
      (addImageToHistory s a).history.length = s.history.length + 1) ∧
    (s.historyIndex < (s.history.length : Int) - 1 →
      ((addImageToHistory s a).history.length : Int) = s.historyIndex + 2) ∧
    (∀ x, x ∈ s.history → x ∉ s.history.take (s.historyIndex.toNat + 1) → x ≠ a →
      x ∉ (addImageToHistory s a).history) := by
  rw [addImageToHistory_eq s a h0]
  have hc : s.historyIndex.toNat + 1 ≤ s.history.length := by omega
  have hlen : (s.history.take (s.historyIndex.toNat + 1) ++ [a]).length =
      s.historyIndex.toNat + 2 := by
    simp [List.length_append, List.length_take]
    omega
  refine ⟨rfl, ?_, ?_, ?_, ?_, ?_⟩
  · simp only [hlen]
    omega
  · simp only [hlen]
  · intro _
    simp only [hlen]
    omega
  · intro _
    simp only [hlen]
    omega
  · intro x _ hxtake hxa
    simp only [List.mem_append, List.mem_singleton]
    rintro (hin | hin)
    · exact hxtake hin
    · exact hxa hin

/-- A concrete mid-history editor state used to witness the claims. -/
def sampleState : EditorState Nat :=
  { history := [10, 20, 30], historyIndex := 1, isLoading := false, error := none }

/-- C1 witness: appending 99 at cursor 1 of `[10, 20, 30]`. -/
theorem append_truncates_and_advances_witness :
    (0 : Int) ≤ sampleState.historyIndex ∧
    sampleState.historyIndex < (sampleState.history.length : Int) ∧
    ((addImageToHistory sampleState 99).history =
        sampleState.history.take (sampleState.historyIndex.toNat + 1) ++ [99] ∧
     (addImageToHistory sampleState 99).historyIndex = sampleState.historyIndex + 1 ∧
     (addImageToHistory sampleState 99).historyIndex =
        ((addImageToHistory sampleState 99).history.length : Int) - 1 ∧
     (sampleState.historyIndex = (sampleState.history.length : Int) - 1 →
        (addImageToHistory sampleState 99).history.length =
          sampleState.history.length + 1) ∧
     (sampleState.historyIndex < (sampleState.history.length : Int) - 1 →
        ((addImageToHistory sampleState 99).history.length : Int) =
          sampleState.historyIndex + 2) ∧
     (∀ x, x ∈ sampleState.history →
        x ∉ sampleState.history.take (sampleState.historyIndex.toNat + 1) → x ≠ 99 →
        x ∉ (addImageToHistory sampleState 99).history)) :=
  ⟨by decide, by decide,
   append_truncates_and_advances sampleState 99 (by decide) (by decide)⟩

/-- C2: the cursor invariant holds initially and is preserved by seeding
(`setHistoryState` with a non-empty payload and index 0), by append, by
seek, and by reset. -/
theorem history_invariant_preserved {α : Type} (s : EditorState α) (a : α)
    (h : List α) (i : Int) (hs : HistoryInv s) (hh : h ≠ []) :
    HistoryInv (initialState : EditorState α) ∧
    HistoryInv (setHistoryState s h 0) ∧
    HistoryInv (addImageToHistory s a) ∧
    HistoryInv (handleHistoryNavigation s i) ∧
    HistoryInv (resetHistory s) := by
  refine ⟨⟨fun _ => rfl, fun hne => absurd rfl hne⟩, ?_, addImageToHistory_historyInv s a, ?_, ?_⟩
  · refine ⟨fun hemp => absurd hemp hh, fun _ => ⟨le_refl 0, ?_⟩⟩
    have : h.length ≠ 0 := fun h0 => hh (List.eq_nil_of_length_eq_zero h0)
    simp [setHistoryState]
    omega
  · unfold handleHistoryNavigation
    split
    · next hcond =>
      refine ⟨fun hemp => ?_, fun _ => ⟨hcond.1, hcond.2⟩⟩
      exfalso
      have hsh : s.history = [] := hemp
      have h2 := hcond.2
      rw [hsh] at h2
      simp at h2
      omega
    · exact hs
  · exact ⟨fun _ => rfl, fun hne => absurd rfl hne⟩

/-- C2 witness at the concrete mid-history state. -/
theorem history_invariant_preserved_witness :
    HistoryInv (initialState : EditorState Nat) ∧
    HistoryInv (setHistoryState sampleState [5] 0) ∧
    HistoryInv (addImageToHistory sampleState 99) ∧
    HistoryInv (handleHistoryNavigation sampleState 2) ∧
    HistoryInv (resetHistory sampleState) :=
  history_invariant_preserved sampleState 99 [5] 2
    (by refine ⟨fun hemp => ?_, fun _ => by decide⟩; simp [sampleState] at hemp)
    (by simp)

/-- C5: in-range seek does not mutate the sequence, makes `current()`
return exactly `History[i]`, and is idempotent on the store state. -/
theorem seek_in_range_spec {α : Type} (s : EditorState α) (i : Int)
    (h0 : 0 ≤ i) (h1 : i < (s.history.length : Int)) :
    (handleHistoryNavigation s i).history = s.history ∧
    (∃ hin : i.toNat < s.history.length,
      currentArtifact (handleHistoryNavigation s i) = some (s.history.get ⟨i.toNat, hin⟩)) ∧
    handleHistoryNavigation (handleHistoryNavigation s i) i =
      handleHistoryNavigation s i := by
  have hcond : 0 ≤ i ∧ i < (s.history.length : Int) := ⟨h0, h1⟩
  have hin : i.toNat < s.history.length := by omega
  unfold handleHistoryNavigation
  rw [if_pos hcond]
  have hcond2 : (0 : Int) ≤ i ∧ i < (((setHistoryIndex s i).history.length : Nat) : Int) :=
    hcond
  rw [if_pos hcond2]
  refine ⟨rfl, ⟨hin, ?_⟩, rfl⟩
  unfold currentArtifact jsIndex setHistoryIndex
  rw [if_pos h0]
  simp [List.getElem?_eq_getElem hin]

/-- C5 witness: seeking index 2 of the 3-element sample history. -/
theorem seek_in_range_spec_witness :
    (handleHistoryNavigation sampleState 2).history = sampleState.history ∧
    (∃ hin : (2 : Int).toNat < sampleState.history.length,
      currentArtifact (handleHistoryNavigation sampleState 2) =
        some (sampleState.history.get ⟨(2 : Int).toNat, hin⟩)) ∧
    handleHistoryNavigation (handleHistoryNavigation sampleState 2) 2 =
      handleHistoryNavigation sampleState 2 :=
  seek_in_range_spec sampleState 2 (by decide) (by decide)

/-- C4: when the external generate call throws, `handleGenerate` leaves the
history sequence and the cursor exactly as they were — append only ever
runs on the success path. -/
theorem failed_generate_preserves_history {α : Type} (s : EditorState α)
    (prompt : String) (editHotspot : Option Hotspot) (msg : String) :
    (handleGenerate s prompt editHotspot (.error msg)).history = s.history ∧
    (handleGenerate s prompt editHotspot (.error msg)).historyIndex =
      s.historyIndex := by
  unfold handleGenerate
  split
  · exact ⟨rfl, rfl⟩
  · unfold handleGenerateRun handleGeneratePreCall setIsLoading setError
    exact ⟨rfl, rfl⟩

/-- C9: once the guard has passed, `handleGenerate` runs the guarded body
from a state whose busy flag is raised, and the busy flag is lowered on
every exit path — for a resolving external call and for a throwing one
alike. -/
theorem busy_flag_discipline {α : Type} (s : EditorState α) (prompt : String)
    (editHotspot : Option Hotspot) (svc : Except String α)
    (hcur : (jsIndex s.history s.historyIndex).isSome = true)
    (hp : (jsTrim prompt).isEmpty = false) (hh : editHotspot.isSome = true) :
    (handleGeneratePreCall s).isLoading = true ∧
    handleGenerate s prompt editHotspot svc = handleGenerateRun s svc ∧
    (handleGenerate s prompt editHotspot svc).isLoading = false := by
  have hguard : ((jsIndex s.history s.historyIndex).isNone || (jsTrim prompt).isEmpty
      || editHotspot.isNone) = false := by
    rcases hx : jsIndex s.history s.historyIndex with _ | v
    · rw [hx] at hcur
      simp at hcur
    · rcases hy : editHotspot with _ | w
      · rw [hy] at hh
        simp at hh
      · simp [hx, hy, hp]
  have hrun : handleGenerate s prompt editHotspot svc = handleGenerateRun s svc := by
    unfold handleGenerate
    simp [hguard]
  refine ⟨rfl, hrun, ?_⟩
  rw [hrun]
  unfold handleGenerateRun
  cases svc <;> rfl

/-- C9 witness: both service outcomes at a concrete guarded state. -/
theorem busy_flag_discipline_witness :
    ((handleGeneratePreCall sampleState).isLoading = true ∧
     handleGenerate sampleState "make it blue" (some ⟨3, 4⟩) (.ok 77) =
       handleGenerateRun sampleState (.ok 77) ∧
     (handleGenerate sampleState "make it blue" (some ⟨3, 4⟩) (.ok 77)).isLoading
       = false) ∧
    ((handleGeneratePreCall sampleState).isLoading = true ∧
     handleGenerate sampleState "make it blue" (some ⟨3, 4⟩) (.error "blocked") =
       handleGenerateRun sampleState (.error "blocked") ∧
     (handleGenerate sampleState "make it blue" (some ⟨3, 4⟩)
        (.error "blocked")).isLoading = false) :=
  ⟨busy_flag_discipline sampleState "make it blue" (some ⟨3, 4⟩) (.ok 77)
      (by decide) (by decide) (by decide),
   busy_flag_discipline sampleState "make it blue" (some ⟨3, 4⟩) (.error "blocked")
      (by decide) (by decide) (by decide)⟩

/-- Field-level characterisation of one loop iteration of the batch
minter. -/
theorem mintOneItem_spec (svc : CsvData → Except String (Option Receipt))
    (p : MintingProgress) (item : CsvData) :
    (mintOneItem svc p item).completed =
        p.completed + (if mintSucceeds svc item then 1 else 0) ∧
    (mintOneItem svc p item).errors =
        p.errors + (if mintSucceeds svc item then 0 else 1) ∧
    (mintOneItem svc p item).successfulMints =
        p.successfulMints ++
          (if mintSucceeds svc item then [mintResultOf svc item] else []) ∧
    (mintOneItem svc p item).failedMints =
        p.failedMints ++
          (if mintSucceeds svc item then [] else [mintErrorOf svc item]) ∧
    (mintOneItem svc p item).total = p.total := by
  rcases hsvc : svc item with e | r
  · simp [mintOneItem, mintSucceeds, mintErrorOf, hsvc]
  · rcases r with _ | r
    · simp [mintOneItem, mintSucceeds, mintErrorOf, hsvc]
    · by_cases hh : r.hash = ""
      · simp [mintOneItem, mintSucceeds, mintResultOf, mintErrorOf, hsvc, hh]
      · simp [mintOneItem, mintSucceeds, mintResultOf, mintErrorOf, hsvc, hh]

/-- Every list item is processed by the loop: the run over `items` from
any starting progress records exactly the succeeding items as successes
and the failing items as failures, in order, with the counters matching. -/
theorem foldl_mint_spec (svc : CsvData → Except String (Option Receipt)) :
    ∀ (items : List CsvData) (p : MintingProgress),
    (items.foldl (mintOneItem svc) p).completed =
        p.completed + (items.filter (mintSucceeds svc)).length ∧
    (items.foldl (mintOneItem svc) p).errors =
        p.errors + (items.filter (fun it => !(mintSucceeds svc it))).length ∧
    (items.foldl (mintOneItem svc) p).successfulMints =
        p.successfulMints ++
          (items.filter (mintSucceeds svc)).map (mintResultOf svc) ∧
    (items.foldl (mintOneItem svc) p).failedMints =
        p.failedMints ++
          (items.filter (fun it => !(mintSucceeds svc it))).map (mintErrorOf svc) ∧
    (items.foldl (mintOneItem svc) p).total = p.total
  | [], p => by simp
  | item :: rest, p => by
      obtain ⟨hc, he, hs, hf, ht⟩ := foldl_mint_spec svc rest (mintOneItem svc p item)
      obtain ⟨mc, me, ms, mf, mt⟩ := mintOneItem_spec svc p item
      rw [List.foldl_cons]
      by_cases hitem : mintSucceeds svc item
      · refine ⟨?_, ?_, ?_, ?_, ?_⟩
        · rw [hc, mc]
          simp [List.filter_cons, hitem]
          omega
        · rw [he, me]
          simp [List.filter_cons, hitem]
        · rw [hs, ms]
          simp [List.filter_cons, hitem]
        · rw [hf, mf]
          simp [List.filter_cons, hitem]
        · rw [ht, mt]
      · refine ⟨?_, ?_, ?_, ?_, ?_⟩
        · rw [hc, mc]
          simp [List.filter_cons, hitem]
        · rw [he, me]
          simp [List.filter_cons, hitem]
          omega
        · rw [hs, ms]
          simp [List.filter_cons, hitem]
        · rw [hf, mf]
          simp [List.filter_cons, hitem]
        · rw [ht, mt]

/-- Splitting a list by a boolean predicate preserves its length. -/
theorem length_filter_add_length_filter_not {α : Type} (q : α → Bool) :
    ∀ l : List α,
      (l.filter q).length + (l.filter (fun x => !(q x))).length = l.length
  | [] => rfl
  | x :: l => by
      have ih := length_filter_add_length_filter_not q l
      by_cases h : q x
      · simp [List.filter_cons, h]
        omega
      · simp [List.filter_cons, h]
        omega

/-- C8: with a connected wallet, a configured contract and a confirmed
non-empty CSV, the batch mint processes every item: each per-item failure
is caught and recorded, each success is recorded, the two counters sum to
the number of items (no early abort), and the records list exactly the
succeeding and failing items. -/
theorem batch_mint_isolates_failures (parsedData : List CsvData)
    (contractAddress network walletAddress : String)
    (svc : CsvData → Except String (Option Receipt))
    (hne : parsedData ≠ []) (hc : contractAddress ≠ "") (hn : network ≠ "")
    (hw : walletAddress ≠ "") :
    ∃ p, handleMintCollection parsedData contractAddress network walletAddress
        true svc = some p ∧
      p.completed = (parsedData.filter (mintSucceeds svc)).length ∧
      p.errors = (parsedData.filter (fun it => !(mintSucceeds svc it))).length ∧
      p.completed + p.errors = parsedData.length ∧
      p.successfulMints =
        (parsedData.filter (mintSucceeds svc)).map (mintResultOf svc) ∧
      p.failedMints =
        (parsedData.filter (fun it => !(mintSucceeds svc it))).map (mintErrorOf svc) ∧
      p.total = parsedData.length := by
  have hlen : parsedData.length ≠ 0 := fun h0 => hne (List.eq_nil_of_length_eq_zero h0)
  have hmc : handleMintCollection parsedData contractAddress network walletAddress
      true svc = some (runMintLoop svc parsedData) := by
    unfold handleMintCollection
    simp [hlen, hc, hn, hw]
  obtain ⟨hcomp, herr, hsucc, hfail, htot⟩ :=
    foldl_mint_spec svc parsedData (initialMintingProgress parsedData.length)
  refine ⟨runMintLoop svc parsedData, hmc, ?_, ?_, ?_, ?_, ?_, ?_⟩
  · show (parsedData.foldl (mintOneItem svc)
        (initialMintingProgress parsedData.length)).completed = _
    rw [hcomp]
    simp [initialMintingProgress]
  · show (parsedData.foldl (mintOneItem svc)
        (initialMintingProgress parsedData.length)).errors = _
    rw [herr]
    simp [initialMintingProgress]
  · show (parsedData.foldl (mintOneItem svc)
          (initialMintingProgress parsedData.length)).completed +
        (parsedData.foldl (mintOneItem svc)
          (initialMintingProgress parsedData.length)).errors = _
    rw [hcomp, herr]
    simp [initialMintingProgress]
    exact length_filter_add_length_filter_not (mintSucceeds svc) parsedData
  · show (parsedData.foldl (mintOneItem svc)
        (initialMintingProgress parsedData.length)).successfulMints = _
    rw [hsucc]
    simp [initialMintingProgress]
  · show (parsedData.foldl (mintOneItem svc)
        (initialMintingProgress parsedData.length)).failedMints = _
    rw [hfail]
    simp [initialMintingProgress]
  · show (parsedData.foldl (mintOneItem svc)
        (initialMintingProgress parsedData.length)).total = _
    rw [htot]
    simp [initialMintingProgress]

/-- The three CSV rows of the spec's batch-mint scenario. -/
def scenarioData : List CsvData :=
  [{ tokenId := "1", metadataUrl := "ipfs://m1" },
   { tokenId := "2", metadataUrl := "ipfs://m2" },
   { tokenId := "3", metadataUrl := "ipfs://m3" }]

/-- A mint service for which exactly item 2 fails. -/
def scenarioSvc (item : CsvData) : Except String (Option Receipt) :=
  if item.tokenId = "2" then Except.error "item 2 failed"
  else Except.ok (some { hash := "0xabc" })

/-- C8 witness: batch of 3 where item 2 fails — 2 successes, 1 failure,
and item 3 was processed and recorded. -/
theorem batch_mint_isolates_failures_witness :
    ∃ p, handleMintCollection scenarioData "0xC0FFEE" "polygon-mainnet" "0xWALLET"
        true scenarioSvc = some p ∧
      p.completed = (scenarioData.filter (mintSucceeds scenarioSvc)).length ∧
      p.errors =
        (scenarioData.filter (fun it => !(mintSucceeds scenarioSvc it))).length ∧
      p.completed + p.errors = scenarioData.length ∧
      p.successfulMints =
        (scenarioData.filter (mintSucceeds scenarioSvc)).map (mintResultOf scenarioSvc) ∧
      p.failedMints =
        (scenarioData.filter (fun it => !(mintSucceeds scenarioSvc it))).map
          (mintErrorOf scenarioSvc) ∧
      p.total = scenarioData.length :=
  batch_mint_isolates_failures scenarioData "0xC0FFEE" "polygon-mainnet" "0xWALLET"
    scenarioSvc (by decide) (by decide) (by decide) (by decide)

/-- The scenario's filtered lists evaluate to the concrete report of the
claim: successes for tokens 1 and 3 (so item 3 was processed, no early
abort) and the single recorded failure for token 2. -/
theorem batch_mint_scenario_report :
    (scenarioData.filter (mintSucceeds scenarioSvc)).length = 2 ∧
    (scenarioData.filter (fun it => !(mintSucceeds scenarioSvc it))).length = 1 ∧
    (scenarioData.filter (mintSucceeds scenarioSvc)).map (mintResultOf scenarioSvc) =
      [{ tokenId := "1", txHash := "0xabc" }, { tokenId := "3", txHash := "0xabc" }] ∧
    (scenarioData.filter (fun it => !(mintSucceeds scenarioSvc it))).map
        (mintErrorOf scenarioSvc) =
      [{ tokenId := "2", error := "item 2 failed" }] := by
  decide

end Pixshop
